import Mathlib

/-!
Verification development for the dealdoctor deterministic diagnosis engine.

The definitions below are a shallow embedding of the repository's core:
`src/lib/signals.ts` (signal extraction), `src/lib/rules.ts` (rule catalog,
rule evaluator, confidence, severity, evidence), the signals-based pipeline
engine (`diagnoseDeal`, `getAllDiagnoses`, `generateActions`) and the legacy
engine `src/lib/diagnosis-engine.ts`.  JavaScript day counters are modelled
as `Int`; `Date` values as `Int` epoch stamps; `null` as `Option`; the
ES2019 stable `Array.prototype.sort` with a numeric comparator as Mathlib's
stable `List.insertionSort` on the total preorder `compare a b ≤ 0`;
`crypto.randomUUID` as an explicit identifier-source parameter.

Confidence scores: every constant in the source is a decimal fraction with
two decimal places (0.6, 0.65, 0.7, 0.1, 0.15, 1.0) and the only operations
are addition, multiplication by the integer `matchCount - 1`, and capping at
1.0, so the arithmetic stays exactly on the hundredths grid.  We represent a
confidence value exactly by its number of hundredths as an `Int` (0.6 is
`60`, the cap 1.0 is `100`); theorems restate named decimal values through
the bridge `(c : ℚ) / 100`.
-/

namespace DealDoctor

/-- Severity levels, from `src/types/deal.ts`. -/
inductive Severity
  | low
  | medium
  | high
  | critical
deriving DecidableEq, Repr

/-- The six diagnosis codes, from `src/types/deal.ts`. -/
inductive DiagnosisCode
  | SINGLE_THREADED
  | NO_ECONOMIC_BUYER
  | NO_BUSINESS_IMPACT
  | NO_NEW_VALUE
  | WEAK_URGENCY
  | SALES_PROCESS_GAPS
deriving DecidableEq, Repr

/-- Pipeline stages, from `src/types/deal.ts`. -/
inductive DealStage
  | discovery
  | demo
  | proposal
  | negotiation
  | closed_won
  | closed_lost
deriving DecidableEq, Repr

/-- Stakeholder roles, from `src/types/deal.ts`. -/
inductive StakeholderRole
  | champion
  | economic_buyer
  | technical_buyer
  | influencer
  | blocker
deriving DecidableEq, Repr

structure Stakeholder where
  id : String
  name : String
  title : String
  email : String
  role : StakeholderRole
deriving DecidableEq, Repr

/-- Normalized signals, from `src/types/deal.ts` (`DealSignals`). -/
structure DealSignals where
  contactCount : Nat
  decisionMakerPresent : Bool
  crossFunctionalContactPresent : Bool
  daysSinceLastActivity : Int
  daysInStage : Int
  nextStepScheduled : Bool
  budgetDiscussed : Bool
  metricsMentioned : Bool
  newValueSentPostDemo : Bool
  timelineDefined : Bool
  consequenceOfInactionDefined : Bool
  discoverySummaryPresent : Bool
deriving DecidableEq, Repr

/-- A fired rule, from `src/types/deal.ts` (`RuleMatch`). -/
structure RuleMatch where
  ruleId : String
  severity : Severity
deriving DecidableEq, Repr

/-- A diagnosis record, from `src/types/deal.ts` (`Diagnosis`). -/
structure Diagnosis where
  code : DiagnosisCode
  severity : Severity
  /-- confidence in hundredths: `80` is the source's `0.8` -/
  confidence : Int
  evidence : List String
  explanation : String
  matchedRules : List String
deriving DecidableEq, Repr

inductive Impact
  | high
  | medium
  | low
deriving DecidableEq, Repr

inductive ActionStatus
  | pending
  | in_progress
  | completed
deriving DecidableEq, Repr

/-- A recommended action, from `src/types/deal.ts` (`RecommendedAction`). -/
structure RecommendedAction where
  id : String
  action : String
  playbook : String
  reason : String
  expectedImpact : Impact
  timeToExecute : String
  status : ActionStatus
deriving DecidableEq, Repr

/-- A deal record, from `src/types/deal.ts` (`Deal`).  `Date` fields are
modelled as `Int` epoch stamps; `reminderDate : Date | null` as `Option Int`. -/
structure Deal where
  id : String
  companyName : String
  dealValue : Int
  stage : DealStage
  daysInactive : Int
  stakeholders : List Stakeholder
  notes : String
  diagnosis : Option Diagnosis
  recommendedActions : List RecommendedAction
  createdAt : Int
  lastActivityAt : Int
  reminderDate : Option Int
deriving DecidableEq, Repr

/-! ### Word-boundary regex matching

The source tests notes and titles with case-insensitive `\b(...)\b` keyword
alternations.  We model `\w` as `[A-Za-z0-9_]`, a `\b` position as a
word/non-word transition, and case-insensitivity by lowercasing the text
(all pattern literals are already lower-case ASCII). -/

def isWordChar (c : Char) : Bool := c.isAlphanum || c == '_'

/-- Whether position `i` of the text holds a word character (out of range
counts as non-word, like the virtual characters beyond a JS string). -/
def wordAt (t : List Char) (i : Nat) : Bool :=
  match t.drop i with
  | c :: _ => isWordChar c
  | [] => false

/-- `\b` holds at position `i` iff exactly one of the characters around the
gap before position `i` is a word character. -/
def boundaryAt (t : List Char) (i : Nat) : Bool :=
  (decide (i ≠ 0) && wordAt t (i - 1)) != wordAt t i

/-- The literal `kw` occurs at position `i` of `t`. -/
def litAt (t : List Char) (i : Nat) (kw : List Char) : Bool :=
  (t.drop i).take kw.length == kw

/-- The literal `kw` occurs at position `i` with `\b` on both sides. -/
def wbAt (t : List Char) (i : Nat) (kw : List Char) : Bool :=
  litAt t i kw && boundaryAt t i && boundaryAt t (i + kw.length)

/-- `\bkw\b` matches somewhere in `t`. -/
def containsWordWB (t : List Char) (kw : String) : Bool :=
  (List.range (t.length + 1)).any (fun i => wbAt t i kw.toList)

/-- A `\b(k1|k2|...)\b` alternation matches `t`. -/
def matchesAnyWB (t : List Char) (kws : List String) : Bool :=
  kws.any (fun kw => containsWordWB t kw)

/-- `\bpre.?post\b` matches at position `i`: the literal `pre`, optionally one
arbitrary non-newline character, then the literal `post`, with `\b` at the
start and end of the whole match. -/
def dotOptAt (t : List Char) (i : Nat) (pre post : List Char) : Bool :=
  litAt t i pre && boundaryAt t i &&
    ((litAt t (i + pre.length) post && boundaryAt t (i + pre.length + post.length)) ||
      (match t.drop (i + pre.length) with
       | c :: _ =>
         c != '\n' && litAt t (i + pre.length + 1) post &&
           boundaryAt t (i + pre.length + 1 + post.length)
       | [] => false))

/-- `\bpre.?post\b` matches somewhere in `t`. -/
def containsDotOpt (t : List Char) (pre post : String) : Bool :=
  (List.range (t.length + 1)).any (fun i => dotOptAt t i pre.toList post.toList)

/-- Lowercased character list of a string (models `/i` matching and the
explicit `deal.notes.toLowerCase()` in the source). -/
def lowerStr (s : String) : List Char := s.toList.map Char.toLower

/-! ### Signal extraction (`src/lib/signals.ts`, `computeSignals`) -/

def decisionMakerTitleKeywords : List String :=
  ["cfo", "ceo", "vp", "director", "founder", "head of", "chief", "owner", "president"]

def crossFunctionalTitleKeywords : List String :=
  ["finance", "operations", "ops", "it", "legal", "procurement", "purchasing"]

def nextStepKeywords : List String :=
  ["scheduled", "booked", "confirmed", "meeting on", "call on", "next step"]

def budgetKeywords : List String :=
  ["budget", "pricing", "cost", "investment", "spend", "dollars", "$", "contract value"]

def metricsKeywords : List String :=
  ["roi", "revenue", "cost", "savings", "efficiency", "impact", "metrics", "%",
   "million", "thousand", "$", "kpi", "benchmark"]

def newValueKeywords : List String :=
  ["case study", "example", "insight", "benchmark", "update", "new", "whitepaper",
   "report", "data"]

def timelineKeywords : List String :=
  ["deadline", "timeline",
   "by q1", "by q2", "by q3", "by q4",
   "by jan", "by feb", "by mar", "by apr", "by may", "by jun",
   "by jul", "by aug", "by sep", "by oct", "by nov", "by dec",
   "this quarter", "this month", "this week", "target date"]

def consequenceKeywords : List String :=
  ["risk", "consequence", "if we don\x27t", "cost of delay", "miss", "lose",
   "fall behind", "competitor"]

def discoveryKeywords : List String :=
  ["discovery", "use case", "pain point", "challenge", "problem", "requirement", "need"]

/-- `computeSignals` from `src/lib/signals.ts`. -/
def computeSignals (deal : Deal) : DealSignals :=
  let ns := lowerStr deal.notes
  { contactCount := deal.stakeholders.length
    decisionMakerPresent := deal.stakeholders.any (fun s =>
      s.role == .economic_buyer || matchesAnyWB (lowerStr s.title) decisionMakerTitleKeywords)
    crossFunctionalContactPresent := deal.stakeholders.any (fun s =>
      matchesAnyWB (lowerStr s.title) crossFunctionalTitleKeywords)
    daysSinceLastActivity := deal.daysInactive
    daysInStage := deal.daysInactive
    nextStepScheduled :=
      matchesAnyWB ns nextStepKeywords || containsDotOpt ns "follow" "up" ||
        deal.reminderDate.isSome
    budgetDiscussed := matchesAnyWB ns budgetKeywords
    metricsMentioned := matchesAnyWB ns metricsKeywords
    newValueSentPostDemo :=
      (deal.stage == .demo || deal.stage == .proposal || deal.stage == .negotiation) &&
        matchesAnyWB ns newValueKeywords
    timelineDefined := matchesAnyWB ns timelineKeywords || containsDotOpt ns "go" "live"
    consequenceOfInactionDefined := matchesAnyWB ns consequenceKeywords
    discoverySummaryPresent := matchesAnyWB ns discoveryKeywords }

/-! ### Rule catalog (`src/lib/rules.ts`) -/

structure DiagnosisRule where
  id : String
  code : DiagnosisCode
  condition : DealSignals → Bool
  severity : Severity

/-- The 18-rule catalog `DIAGNOSIS_RULES` from `src/lib/rules.ts`, in source
order. -/
def DIAGNOSIS_RULES : List DiagnosisRule :=
  [ { id := "PG-1", code := .SALES_PROCESS_GAPS,
      condition := fun s => !s.discoverySummaryPresent, severity := .medium },
    { id := "PG-2", code := .SALES_PROCESS_GAPS,
      condition := fun s => !s.nextStepScheduled, severity := .high },
    { id := "PG-3", code := .SALES_PROCESS_GAPS,
      condition := fun s => !s.discoverySummaryPresent && !s.nextStepScheduled,
      severity := .high },
    { id := "ST-1", code := .SINGLE_THREADED,
      condition := fun s => s.contactCount == 1, severity := .medium },
    { id := "ST-2", code := .SINGLE_THREADED,
      condition := fun s => s.contactCount == 1 && s.daysInStage > 14,
      severity := .high },
    { id := "ST-3", code := .SINGLE_THREADED,
      condition := fun s => s.contactCount ≤ 2 && !s.crossFunctionalContactPresent,
      severity := .medium },
    { id := "EB-1", code := .NO_ECONOMIC_BUYER,
      condition := fun s => !s.decisionMakerPresent, severity := .high },
    { id := "EB-2", code := .NO_ECONOMIC_BUYER,
      condition := fun s => !s.decisionMakerPresent && s.daysInStage > 21,
      severity := .high },
    { id := "EB-3", code := .NO_ECONOMIC_BUYER,
      condition := fun s => !s.budgetDiscussed && s.daysInStage > 14,
      severity := .medium },
    { id := "BI-1", code := .NO_BUSINESS_IMPACT,
      condition := fun s => !s.metricsMentioned, severity := .medium },
    { id := "BI-2", code := .NO_BUSINESS_IMPACT,
      condition := fun s => !s.metricsMentioned && s.daysInStage > 21,
      severity := .high },
    { id := "BI-3", code := .NO_BUSINESS_IMPACT,
      condition := fun s => !s.budgetDiscussed && !s.metricsMentioned,
      severity := .high },
    { id := "UR-1", code := .WEAK_URGENCY,
      condition := fun s => !s.timelineDefined, severity := .medium },
    { id := "UR-2", code := .WEAK_URGENCY,
      condition := fun s => !s.timelineDefined && !s.consequenceOfInactionDefined,
      severity := .high },
    { id := "UR-3", code := .WEAK_URGENCY,
      condition := fun s => s.daysInStage > 21 && !s.timelineDefined,
      severity := .high },
    { id := "NV-1", code := .NO_NEW_VALUE,
      condition := fun s => !s.newValueSentPostDemo, severity := .medium },
    { id := "NV-2", code := .NO_NEW_VALUE,
      condition := fun s => !s.newValueSentPostDemo && s.daysSinceLastActivity > 10,
      severity := .high },
    { id := "NV-3", code := .NO_NEW_VALUE,
      condition := fun s => !s.newValueSentPostDemo && s.daysInStage > 14,
      severity := .high } ]

/-- `DIAGNOSIS_EXECUTION_ORDER` from `src/lib/rules.ts`. -/
def DIAGNOSIS_EXECUTION_ORDER : List DiagnosisCode :=
  [.SALES_PROCESS_GAPS, .SINGLE_THREADED, .NO_ECONOMIC_BUYER,
   .NO_BUSINESS_IMPACT, .WEAK_URGENCY, .NO_NEW_VALUE]

/-- `BASE_CONFIDENCE` from `src/lib/rules.ts`, in hundredths
(0.6, 0.7, 0.65, 0.6, 0.65, 0.7). -/
def BASE_CONFIDENCE : DiagnosisCode → Int
  | .SINGLE_THREADED => 60
  | .NO_ECONOMIC_BUYER => 70
  | .NO_BUSINESS_IMPACT => 65
  | .NO_NEW_VALUE => 60
  | .WEAK_URGENCY => 65
  | .SALES_PROCESS_GAPS => 70

/-- `CONFIDENCE_BONUSES` from `src/lib/rules.ts` (a keyed object, modelled as
an association list), in hundredths (0.1, 0.15, 0.1). -/
def CONFIDENCE_BONUSES : List (String × Int) :=
  [("EB-2", 10), ("NV-2", 15), ("PG-3", 10)]

/-- Object-key lookup `CONFIDENCE_BONUSES[id]` (`none` = `undefined`). -/
def bonusLookup (id : String) : Option Int :=
  (CONFIDENCE_BONUSES.find? (fun p => p.1 == id)).map (fun p => p.2)

/-- `RULE_EVIDENCE` from `src/lib/rules.ts`. -/
def RULE_EVIDENCE : List (String × String) :=
  [("ST-1", "Only 1 contact associated"),
   ("ST-2", "Only 1 contact and deal stalled for 14+ days"),
   ("ST-3", "No cross-functional stakeholders identified"),
   ("EB-1", "No economic buyer identified"),
   ("EB-2", "No economic buyer and stalled for 21+ days"),
   ("EB-3", "Budget discussion missing"),
   ("BI-1", "No quantified impact found in notes"),
   ("BI-2", "No metrics discussed for 21+ days"),
   ("BI-3", "ROI or metrics not discussed"),
   ("NV-1", "No new insights shared post-demo"),
   ("NV-2", "No new value for 10+ days"),
   ("NV-3", "Repeated follow-ups without new content"),
   ("UR-1", "No decision timeline defined"),
   ("UR-2", "No consequence of delay discussed"),
   ("UR-3", "Stalled 21+ days without timeline"),
   ("PG-1", "No discovery summary recorded"),
   ("PG-2", "No next step scheduled"),
   ("PG-3", "Missing both discovery and next step")]

/-- Object-key lookup `RULE_EVIDENCE[id]` (`none` = `undefined`). -/
def evidenceLookup (id : String) : Option String :=
  (RULE_EVIDENCE.find? (fun p => p.1 == id)).map (fun p => p.2)

/-! ### Rule evaluator (`src/lib/rules.ts`, `evaluateRules`) -/

/-- One `Map.set`/`push` step of `evaluateRules`: append `rm` to the list of
`code`, creating the binding at the end if absent (JS `Map` insertion order). -/
def insertMatch (m : List (DiagnosisCode × List RuleMatch)) (code : DiagnosisCode)
    (rm : RuleMatch) : List (DiagnosisCode × List RuleMatch) :=
  match m with
  | [] => [(code, [rm])]
  | (c, l) :: rest =>
    if c = code then (c, l ++ [rm]) :: rest else (c, l) :: insertMatch rest code rm

/-- `Map.get(code)` on the association-list model of the match map. -/
def lookupMatches (m : List (DiagnosisCode × List RuleMatch))
    (code : DiagnosisCode) : Option (List RuleMatch) :=
  match m with
  | [] => none
  | (c, l) :: rest => if c = code then some l else lookupMatches rest code

/-- `evaluateRules` from `src/lib/rules.ts`: test every catalog rule in order,
collecting matches grouped by code. -/
def evaluateRules (signals : DealSignals) : List (DiagnosisCode × List RuleMatch) :=
  DIAGNOSIS_RULES.foldl
    (fun acc rule =>
      if rule.condition signals then
        insertMatch acc rule.code { ruleId := rule.id, severity := rule.severity }
      else acc)
    []

/-! ### Confidence, severity, evidence (`src/lib/rules.ts`) -/

/-- `calculateConfidence` from `src/lib/rules.ts`, in hundredths: the
rule-count bonus `0.1 * (matchedRules.length - 1)` is `10 * (len - 1)`, the
final `Math.min(confidence, 1.0)` caps at `100`.  The truthiness guard
`if (CONFIDENCE_BONUSES[match.ruleId])` skips both a missing key and a zero
bonus. -/
def calculateConfidence (code : DiagnosisCode) (matchedRules : List RuleMatch) : Int :=
  let c0 := BASE_CONFIDENCE code
  let c1 :=
    if code = .SINGLE_THREADED ∨ code = .NO_BUSINESS_IMPACT then
      c0 + 10 * ((matchedRules.length : Int) - 1)
    else c0
  let c2 := matchedRules.foldl
    (fun c m =>
      match bonusLookup m.ruleId with
      | some b => if b ≠ 0 then c + b else c
      | none => c)
    c1
  if c2 ≤ 100 then c2 else 100

/-- The severity scan order of `getHighestSeverity` (`["high","medium","low"]`). -/
def severityScanOrder : List Severity := [.high, .medium, .low]

/-- `getHighestSeverity` from `src/lib/rules.ts`: return the first severity of
the scan order that occurs among the matches, else `medium`. -/
def getHighestSeverity (matchedRules : List RuleMatch) : Severity :=
  match severityScanOrder.find? (fun sev => matchedRules.any (fun r => r.severity == sev)) with
  | some sev => sev
  | none => .medium

/-- The loop body of `collectEvidence`, carrying the `evidence` array and the
`seen` set (modelled as a list; only membership is used). -/
def collectEvidenceGo : List RuleMatch → List String → List String → List String
  | [], evid, _ => evid
  | m :: rest, evid, seen =>
    match evidenceLookup m.ruleId with
    | some msg =>
      if msg != "" && !seen.contains msg then
        collectEvidenceGo rest (evid ++ [msg]) (seen ++ [msg])
      else collectEvidenceGo rest evid seen
    | none => collectEvidenceGo rest evid seen

/-- `collectEvidence` from `src/lib/rules.ts`. -/
def collectEvidence (matchedRules : List RuleMatch) : List String :=
  collectEvidenceGo matchedRules [] []

/-! ### Pipeline engine (`diagnoseDeal`, `getAllDiagnoses`) -/

/-- `generateExplanation`: one fixed template per code interpolating the
company name (both engines carry an identical copy of this table). -/
def generateExplanation (code : DiagnosisCode) (deal : Deal) : String :=
  match code with
  | .SINGLE_THREADED =>
    "This deal at " ++ deal.companyName ++
      " is stuck because it depends on only one stakeholder. If they go dark, change roles, or lose internal influence, the deal dies. Multi-threading reduces single-point-of-failure risk."
  | .NO_ECONOMIC_BUYER =>
    "No one with budget authority is engaged in the " ++ deal.companyName ++
      " deal. Without an economic buyer, you\x27re building consensus without the person who signs the check."
  | .NO_BUSINESS_IMPACT =>
    "The value of your solution hasn\x27t been quantified for " ++ deal.companyName ++
      ". Without clear ROI or business impact, this becomes a \"nice to have\" rather than a must-have."
  | .NO_NEW_VALUE =>
    "The " ++ deal.companyName ++
      " deal has stalled post-demo. You need to introduce fresh value—a new angle, customer proof point, or insight—to reignite momentum."
  | .WEAK_URGENCY =>
    "There\x27s no compelling event or deadline pushing " ++ deal.companyName ++
      " to act. Without urgency, deals slip quarter after quarter."
  | .SALES_PROCESS_GAPS =>
    "Key sales process steps are missing in the " ++ deal.companyName ++
      " deal. Before any outreach, ensure discovery is documented and next steps are clear."

/-- The diagnosis-building loop shared verbatim by `diagnoseDeal` and
`getAllDiagnoses`: for each code in execution order with a non-empty match
list, build a `Diagnosis`. -/
def buildDiagnosesFrom (ruleMatches : List (DiagnosisCode × List RuleMatch))
    (deal : Deal) : List Diagnosis :=
  DIAGNOSIS_EXECUTION_ORDER.filterMap (fun code =>
    match lookupMatches ruleMatches code with
    | none => none
    | some ms =>
      if ms.isEmpty then none
      else some
        { code := code
          severity := getHighestSeverity ms
          confidence := calculateConfidence code ms
          evidence := collectEvidence ms
          explanation := generateExplanation code deal
          matchedRules := ms.map (fun m => m.ruleId) })

/-- The sort-key table `severityOrder = {high:0, medium:1, low:2, critical:-1}`
used by the pipeline's diagnosis sort. -/
def severityRank : Severity → Int
  | .high => 0
  | .medium => 1
  | .low => 2
  | .critical => -1

/-- Execution-order index of a code (`DIAGNOSIS_EXECUTION_ORDER.indexOf`). -/
def execIndex (code : DiagnosisCode) : Int :=
  ((DIAGNOSIS_EXECUTION_ORDER.indexOf code : Nat) : Int)

/-- The numeric comparator passed to `diagnoses.sort`: severity rank
difference (`sevDiff`), then execution-order difference (`orderDiff`), then
confidence descending. -/
def compareDiag (a b : Diagnosis) : Int :=
  if severityRank a.severity - severityRank b.severity ≠ 0 then
    severityRank a.severity - severityRank b.severity
  else if execIndex a.code - execIndex b.code ≠ 0 then
    execIndex a.code - execIndex b.code
  else b.confidence - a.confidence

/-- The total preorder induced by the comparator (`compare a b ≤ 0`), the
order w.r.t. which the ES2019 stable sort arranges the array. -/
def diagBefore (a b : Diagnosis) : Prop := compareDiag a b ≤ 0

instance : DecidableRel diagBefore :=
  fun a b => inferInstanceAs (Decidable (compareDiag a b ≤ 0))

/-- The stable `Array.prototype.sort` call on the diagnosis list. -/
def sortDiags (l : List Diagnosis) : List Diagnosis := l.insertionSort diagBefore

/-- The sorted diagnosis list the aggregator builds for a deal. -/
def sortedDiagnoses (deal : Deal) : List Diagnosis :=
  sortDiags (buildDiagnosesFrom (evaluateRules (computeSignals deal)) deal)

/-- `diagnoseDeal` from the signals-based pipeline engine. -/
def diagnoseDeal (deal : Deal) : Option Diagnosis :=
  let signals := computeSignals deal
  let ruleMatches := evaluateRules signals
  if ruleMatches.isEmpty then none
  else
    let diagnoses := buildDiagnosesFrom ruleMatches deal
    if diagnoses.isEmpty then none
    else (sortDiags diagnoses).head?

/-- `getAllDiagnoses` from the signals-based pipeline engine: sort and
truncate to 3 (1 primary + up to 2 secondary). -/
def getAllDiagnoses (deal : Deal) : List Diagnosis :=
  let signals := computeSignals deal
  let ruleMatches := evaluateRules signals
  if ruleMatches.isEmpty then []
  else (sortDiags (buildDiagnosesFrom ruleMatches deal)).take 3

/-! ### Action generator (`generateActions`)

`crypto.randomUUID()` is the only impure call; it is modelled by an explicit
`freshId : Nat → String` source, sampled at the successive push positions. -/

/-- The code-specific actions of the `switch` in `generateActions` (codes
falling through no `case` would contribute none; all six codes have a case). -/
def specificActions (freshId : Nat → String) (code : DiagnosisCode) :
    List RecommendedAction :=
  match code with
  | .SINGLE_THREADED | .NO_ECONOMIC_BUYER =>
    [ { id := freshId 0, action := "Multi-thread the deal", playbook := "Multi-Thread",
        reason := "Find Finance, Ops, or VP-level contacts to reduce single-point failure risk",
        expectedImpact := .high, timeToExecute := "2-3 days", status := .pending },
      { id := freshId 1, action := "Request warm intro from existing contact",
        playbook := "Multi-Thread",
        reason := "Leverage your champion to reach the economic buyer",
        expectedImpact := .high, timeToExecute := "1 day", status := .pending } ]
  | .NO_BUSINESS_IMPACT | .WEAK_URGENCY =>
    [ { id := freshId 0, action := "Re-anchor on business impact",
        playbook := "Business Impact",
        reason := "Generate industry benchmarks and cost-of-inaction framing",
        expectedImpact := .high, timeToExecute := "1-2 days", status := .pending },
      { id := freshId 1, action := "Create urgency with deadline",
        playbook := "Create Urgency",
        reason := "Reframe around upcoming deadline or competitive pressure",
        expectedImpact := .medium, timeToExecute := "1 day", status := .pending } ]
  | .NO_NEW_VALUE =>
    [ { id := freshId 0, action := "Share new customer example or insight",
        playbook := "New Value",
        reason := "Introduce fresh perspective to restart momentum",
        expectedImpact := .medium, timeToExecute := "1 day", status := .pending },
      { id := freshId 1, action := "Expand use case discussion", playbook := "New Value",
        reason := "Explore adjacent problems your solution solves",
        expectedImpact := .medium, timeToExecute := "2 days", status := .pending } ]
  | .SALES_PROCESS_GAPS =>
    [ { id := freshId 0, action := "Complete sales hygiene checklist",
        playbook := "Sales Hygiene",
        reason := "Document discovery summary and decision process before outreach",
        expectedImpact := .high, timeToExecute := "30 min", status := .pending } ]

/-- The generic reminder action always pushed after the switch. -/
def reminderAction (id : String) : RecommendedAction :=
  { id := id, action := "Set follow-up reminder", playbook := "Follow-up",
    reason := "Ensure consistent touchpoint to prevent deal from going cold",
    expectedImpact := .low, timeToExecute := "1 min", status := .pending }

/-- `generateActions(diagnosis, deal)` (the `deal` argument is accepted but
unused, mirroring the source): code-specific actions, then the generic
reminder, then `slice(0, 3)`. -/
def generateActions (freshId : Nat → String) (diagnosis : Diagnosis)
    (_deal : Deal) : List RecommendedAction :=
  let actions := specificActions freshId diagnosis.code
  let actions := actions ++ [reminderAction (freshId actions.length)]
  actions.take 3

/-! ### Legacy engine (`src/lib/diagnosis-engine.ts`)

The older rules-based `diagnoseDeal`.  Its diagnosis literals carry only
`code`, `severity` and `evidence` (plus the explanation added at the end) —
no `confidence` and no `matchedRules`. -/

structure LegacyDiagnosis where
  code : DiagnosisCode
  severity : Severity
  evidence : List String
  explanation : String
deriving DecidableEq, Repr

def legacyEconomicBuyerTitleKeywords : List String :=
  ["cfo", "ceo", "vp", "director", "founder", "head of", "chief"]

def legacyImpactKeywords : List String :=
  ["roi", "revenue", "cost", "savings", "efficiency", "impact", "metrics", "%",
   "million", "thousand", "$"]

def legacyRecentValueKeywords : List String :=
  ["case study", "example", "insight", "benchmark", "new", "update"]

def legacyUrgencyKeywords : List String :=
  ["deadline", "urgent", "asap", "this quarter", "this month", "timeline", "priority"]

def legacyDelayKeywords : List String :=
  ["later", "next year", "revisit", "someday", "no rush", "backburner"]

def legacyProcessKeywords : List String :=
  ["discovery", "use case", "next step", "meeting", "call scheduled"]

/-- The pre-sort diagnosis list of the legacy engine: Rules 1-6 in source
order (evidence `.filter(Boolean)` drops the empty string of a false ternary). -/
def legacyCandidates (deal : Deal) : List (DiagnosisCode × Severity × List String) :=
  let ns := lowerStr deal.notes
  (if deal.stakeholders.length ≤ 1 then
    [(DiagnosisCode.SINGLE_THREADED,
      (if deal.daysInactive > 14 then Severity.critical else Severity.high),
      ["Only " ++ toString deal.stakeholders.length ++ " contact associated with deal"] ++
        (if deal.daysInactive > 7 then
          ["Deal stalled for " ++ toString deal.daysInactive ++ " days"]
         else []))]
   else []) ++
  (let hasEconomicBuyer := deal.stakeholders.any (fun s =>
     s.role == .economic_buyer ||
       matchesAnyWB (lowerStr s.title) legacyEconomicBuyerTitleKeywords)
   if !hasEconomicBuyer && deal.stakeholders.length > 0 then
     [(DiagnosisCode.NO_ECONOMIC_BUYER,
       (if deal.stage = .negotiation then Severity.critical else Severity.high),
       ["No stakeholder with budget authority identified",
        "Missing Finance / Founder / VP / Director titles"])]
   else []) ++
  (if !matchesAnyWB ns legacyImpactKeywords then
    [(DiagnosisCode.NO_BUSINESS_IMPACT, Severity.medium,
      ["No quantified metrics mentioned in notes",
       "Missing ROI, cost savings, or efficiency data"])]
   else []) ++
  (if (deal.stage = .demo ∨ deal.stage = .proposal) ∧ deal.daysInactive > 7 then
    (if !matchesAnyWB ns legacyRecentValueKeywords then
      [(DiagnosisCode.NO_NEW_VALUE, Severity.medium,
        ["No new assets shared post-demo",
         "No fresh insights or customer examples provided"])]
     else [])
   else []) ++
  (if matchesAnyWB ns legacyDelayKeywords || !matchesAnyWB ns legacyUrgencyKeywords then
    [(DiagnosisCode.WEAK_URGENCY,
      (if deal.daysInactive > 30 then Severity.high else Severity.medium),
      ["No clear timeline established",
       (if matchesAnyWB ns legacyDelayKeywords then "Buyer indicated low priority"
        else "No urgency keywords in notes")])]
   else []) ++
  (if !matchesAnyWB ns legacyProcessKeywords && !(deal.stage = .discovery) then
    [(DiagnosisCode.SALES_PROCESS_GAPS, Severity.medium,
      ["No discovery summary documented",
       "Missing next meeting or step confirmation"])]
   else [])

/-- Sort key: `["critical","high","medium","low"].indexOf(severity)`. -/
def legacySeverityOrder : List Severity := [.critical, .high, .medium, .low]

def legacySeverityIdx (s : Severity) : Nat := legacySeverityOrder.indexOf s

/-- The stable ascending sort of the legacy engine's candidate list. -/
def legacySortCandidates (l : List (DiagnosisCode × Severity × List String)) :
    List (DiagnosisCode × Severity × List String) :=
  l.insertionSort (fun a b => legacySeverityIdx a.2.1 ≤ legacySeverityIdx b.2.1)

/-- Legacy `diagnoseDeal`: highest-severity candidate, with the explanation
template applied (the legacy module carries an identical explanation table). -/
def legacyDiagnoseDeal (deal : Deal) : Option LegacyDiagnosis :=
  let diagnoses := legacyCandidates deal
  if diagnoses.isEmpty then none
  else
    match (legacySortCandidates diagnoses).head? with
    | none => none
    | some primary =>
      some { code := primary.1, severity := primary.2.1, evidence := primary.2.2,
             explanation := generateExplanation primary.1 deal }

/-! ### Concrete fixtures used by the claims -/

/-- The §8 scenario deal: empty stakeholders, stage discovery, empty notes,
no reminder, zero days inactive. -/
def scenarioDeal : Deal :=
  { id := "deal-scenario", companyName := "Acme Corp", dealValue := 10000,
    stage := .discovery, daysInactive := 0, stakeholders := [], notes := "",
    diagnosis := none, recommendedActions := [], createdAt := 0,
    lastActivityAt := 0, reminderDate := none }

/-- A single-threaded stalled deal: one non-executive stakeholder, 18 days
inactive, empty notes. -/
def stalledDeal : Deal :=
  { id := "deal-stalled", companyName := "Globex", dealValue := 50000,
    stage := .discovery, daysInactive := 18,
    stakeholders := [{ id := "s1", name := "Pat Doe", title := "Manager",
                       email := "pat@globex.example", role := .champion }],
    notes := "", diagnosis := none, recommendedActions := [], createdAt := 0,
    lastActivityAt := 0, reminderDate := none }

/-- A deterministic identifier source standing in for `crypto.randomUUID`. -/
def sampleIds (n : Nat) : String := "uuid-" ++ toString n

/-- A sample diagnosis with code `SINGLE_THREADED`. -/
def sampleSingleThreadedDiagnosis : Diagnosis :=
  { code := .SINGLE_THREADED, severity := .high, confidence := 80,
    evidence := ["Only 1 contact associated"], explanation := "",
    matchedRules := ["ST-1", "ST-2", "ST-3"] }

/-- A sample diagnosis with code `SALES_PROCESS_GAPS`. -/
def sampleProcessGapsDiagnosis : Diagnosis :=
  { code := .SALES_PROCESS_GAPS, severity := .high, confidence := 80,
    evidence := ["No next step scheduled"], explanation := "",
    matchedRules := ["PG-1", "PG-2", "PG-3"] }

/-! ### Derived specification functions

These restate observable behaviour for use inside theorem statements; they
are not part of the embedding of the source. -/

def ruleToMatch (r : DiagnosisRule) : RuleMatch :=
  { ruleId := r.id, severity := r.severity }

/-- The rules of `rules` carrying `code` whose predicates hold on `s`, in
catalog order, converted to matches. -/
def firedFor (rules : List DiagnosisRule) (s : DealSignals)
    (code : DiagnosisCode) : List RuleMatch :=
  (rules.filter (fun r => decide (r.code = code) && r.condition s)).map ruleToMatch

/-- The bonus actually added for a rule identifier by the truthiness-guarded
lookup (zero for a missing key and for a zero table entry). -/
def bonusOf (id : String) : Int :=
  match bonusLookup id with
  | some b => if b ≠ 0 then b else 0
  | none => 0

/-- The evidence strings of the matches, in match order, keeping duplicates
(only truthy lookups contribute). -/
def evidenceTexts (ms : List RuleMatch) : List String :=
  ms.filterMap (fun m =>
    match evidenceLookup m.ruleId with
    | some msg => if msg = "" then none else some msg
    | none => none)

/-- Keep the first occurrence of every string not already in `seen`, dropping
later duplicates. -/
def firstOccurrences : List String → List String → List String
  | [], _ => []
  | x :: xs, seen =>
    if seen.contains x then firstOccurrences xs seen
    else x :: firstOccurrences xs (x :: seen)

/-- The lexicographic order the sort keys describe: severity rank ascending,
then execution-order index ascending, then confidence descending. -/
def diagLex (a b : Diagnosis) : Prop :=
  severityRank a.severity < severityRank b.severity ∨
    (severityRank a.severity = severityRank b.severity ∧
      (execIndex a.code < execIndex b.code ∨
        (execIndex a.code = execIndex b.code ∧ b.confidence ≤ a.confidence)))

/-! ## Properties of the comparator order -/

theorem diagBefore_iff_diagLex (a b : Diagnosis) : diagBefore a b ↔ diagLex a b := by
  simp only [diagBefore, compareDiag, diagLex]
  split_ifs <;> omega

instance : IsTotal Diagnosis diagBefore where
  total a b := by
    simp only [diagBefore, compareDiag]
    split_ifs <;> omega

instance : IsTrans Diagnosis diagBefore where
  trans a b c hab hbc := by
    simp only [diagBefore, compareDiag] at hab hbc ⊢
    split_ifs at hab hbc ⊢ <;> omega

/-! ## C8: the two day-counter signals are synonyms -/

/-- C8.  For every deal, `computeSignals` sets both `daysSinceLastActivity`
and `daysInStage` to the deal's days-inactive counter. -/
theorem computeSignals_day_synonyms (deal : Deal) :
    (computeSignals deal).daysSinceLastActivity = deal.daysInactive ∧
      (computeSignals deal).daysInStage = deal.daysInactive :=
  ⟨rfl, rfl⟩

/-! ## C9: determinism of the pipeline -/

/-- C9.  `diagnoseDeal` is a pure function of the deal snapshot: two
invocations on equal (unmodified) snapshots return identical diagnoses,
including code, severity, confidence, evidence, explanation and
matched-rule list. -/
theorem diagnoseDeal_deterministic (d₁ d₂ : Deal) (h : d₁ = d₂) :
    diagnoseDeal d₁ = diagnoseDeal d₂ := by
  rw [h]

theorem diagnoseDeal_deterministic_witness :
    scenarioDeal = scenarioDeal ∧ diagnoseDeal scenarioDeal = diagnoseDeal scenarioDeal :=
  ⟨rfl, diagnoseDeal_deterministic scenarioDeal scenarioDeal rfl⟩

/-! ## C5: `getHighestSeverity` scans only high > medium > low -/

/-- C5 counterexample.  A match list containing (only) a `critical` match
returns `medium`, not `critical`: the scan order of `getHighestSeverity`
has three levels and never returns `critical`. -/
theorem getHighestSeverity_critical_counterexample :
    getHighestSeverity [{ ruleId := "XX-1", severity := .critical }] = .medium ∧
      Severity.medium ≠ Severity.critical := by
  exact ⟨by decide, by decide⟩

/-- C5 (amended).  `getHighestSeverity` returns the highest-priority severity
present under the 3-level scan order high > medium > low, and `medium` when
none of those three levels is present — in particular for the empty list and
for lists whose matches are all `critical` (a `critical` match is ignored by
the scan). -/
theorem getHighestSeverity_characterization (ms : List RuleMatch) :
    getHighestSeverity ms =
      if ms.any (fun r => r.severity == Severity.high) then .high
      else if ms.any (fun r => r.severity == Severity.medium) then .medium
      else if ms.any (fun r => r.severity == Severity.low) then .low
      else .medium := by
  by_cases h1 : ms.any (fun r => r.severity == Severity.high)
  · simp [getHighestSeverity, severityScanOrder, List.find?_cons_of_pos, h1]
  · by_cases h2 : ms.any (fun r => r.severity == Severity.medium)
    · simp [getHighestSeverity, severityScanOrder, List.find?_cons_of_neg,
        List.find?_cons_of_pos, h1, h2]
    · by_cases h3 : ms.any (fun r => r.severity == Severity.low)
      · simp [getHighestSeverity, severityScanOrder, List.find?_cons_of_neg,
          List.find?_cons_of_pos, h1, h2, h3]
      · simp [getHighestSeverity, severityScanOrder, List.find?_cons_of_neg, h1, h2, h3]

/-! ## C1: the reminder action is never dropped by the truncation -/

/-- C1 counterexample.  For a `SINGLE_THREADED` diagnosis the generated list
has its two specific actions AND the generic reminder (2 + 1 = 3 fits inside
`slice(0, 3)`), so the reminder is not dropped. -/
theorem generateActions_counterexample :
    (generateActions sampleIds sampleSingleThreadedDiagnosis scenarioDeal).map
        (fun a => a.action) =
      ["Multi-thread the deal", "Request warm intro from existing contact",
       "Set follow-up reminder"] ∧
    "Set follow-up reminder" ∈
      (generateActions sampleIds sampleSingleThreadedDiagnosis scenarioDeal).map
        (fun a => a.action) := by
  exact ⟨by decide, by decide⟩

/-- C1 (amended).  `generateActions` appends the generic reminder after the
code-specific actions and truncates to at most 3; since every two-action
branch yields 2 + 1 = 3 ≤ 3, the reminder is never dropped: the result always
ends with "Set follow-up reminder", has exactly 2 entries for
`SALES_PROCESS_GAPS` (1 specific + reminder) and exactly 3 for every other
code (2 specific + reminder). -/
theorem generateActions_characterization (freshId : Nat → String)
    (diagnosis : Diagnosis) (deal : Deal) :
    (generateActions freshId diagnosis deal).length =
        (if diagnosis.code = .SALES_PROCESS_GAPS then 2 else 3) ∧
      ((generateActions freshId diagnosis deal).getLast?).map (fun a => a.action) =
        some "Set follow-up reminder" ∧
      (generateActions freshId diagnosis deal).length ≤ 3 := by
  rcases h : diagnosis.code <;>
    simp [generateActions, specificActions, reminderAction, h]

/-! ## C6: the empty-deal scenario -/

/-- C6.  For the §8 scenario deal (no stakeholders, stage discovery, empty
notes, no reminder, 0 days inactive) the fired rules are exactly PG-1, PG-2,
PG-3, ST-3, EB-1, BI-1, BI-3, UR-1, UR-2, NV-1, and the primary diagnosis is
`SALES_PROCESS_GAPS` with severity `high`. -/
theorem scenarioDeal_diagnosis :
    (DIAGNOSIS_RULES.filter (fun r => r.condition (computeSignals scenarioDeal))).map
        (fun r => r.id) =
      ["PG-1", "PG-2", "PG-3", "ST-3", "EB-1", "BI-1", "BI-3", "UR-1", "UR-2", "NV-1"] ∧
    (diagnoseDeal scenarioDeal).map (fun d => (d.code, d.severity)) =
      some (.SALES_PROCESS_GAPS, .high) := by
  exact ⟨by decide, by decide⟩

/-! ## C4: `evaluateRules` fires exactly the satisfied catalog rules -/

theorem lookupMatches_insertMatch (m : List (DiagnosisCode × List RuleMatch))
    (k q : DiagnosisCode) (rm : RuleMatch) :
    lookupMatches (insertMatch m k rm) q =
      if k = q then some (((lookupMatches m q).getD []) ++ [rm])
      else lookupMatches m q := by
  induction m with
  | nil =>
    by_cases h : k = q <;> simp [insertMatch, lookupMatches, h]
  | cons p rest ih =>
    obtain ⟨c, l⟩ := p
    by_cases h1 : c = k
    · subst h1
      by_cases h2 : c = q <;> simp [insertMatch, lookupMatches, h2]
    · by_cases h2 : c = q
      · subst h2
        have hk : ¬ k = c := fun hh => h1 hh.symm
        simp [insertMatch, lookupMatches, h1, hk]
      · simp [insertMatch, lookupMatches, h1, h2, ih]

theorem lookupMatches_evalFold (rules : List DiagnosisRule) (s : DealSignals)
    (acc : List (DiagnosisCode × List RuleMatch)) (q : DiagnosisCode) :
    lookupMatches
        (rules.foldl
          (fun acc rule =>
            if rule.condition s then
              insertMatch acc rule.code { ruleId := rule.id, severity := rule.severity }
            else acc)
          acc) q =
      if lookupMatches acc q = none ∧ firedFor rules s q = [] then none
      else some (((lookupMatches acc q).getD []) ++ firedFor rules s q) := by
  induction rules generalizing acc with
  | nil =>
    simp only [List.foldl_nil, firedFor, List.filter_nil, List.map_nil]
    cases h : lookupMatches acc q <;> simp [h]
  | cons r rs ih =>
    rw [List.foldl_cons]
    by_cases hcond : r.condition s
    · by_cases hcode : r.code = q
      · have hfired : firedFor (r :: rs) s q = ruleToMatch r :: firedFor rs s q := by
          simp [firedFor, List.filter_cons, hcond, hcode]
        rw [if_pos hcond, ih, lookupMatches_insertMatch, if_pos hcode, hfired]
        cases h : lookupMatches acc q <;>
          simp [h, ruleToMatch, List.append_assoc]
      · have hfired : firedFor (r :: rs) s q = firedFor rs s q := by
          simp [firedFor, List.filter_cons, hcond, hcode]
        rw [if_pos hcond, ih, lookupMatches_insertMatch, if_neg hcode, hfired]
    · have hfired : firedFor (r :: rs) s q = firedFor rs s q := by
        simp [firedFor, List.filter_cons, hcond]
      rw [if_neg hcond, ih, hfired]

theorem firedFor_singleThreaded_ST2 (s : DealSignals) :
    ({ ruleId := "ST-2", severity := .high } : RuleMatch) ∈
        firedFor DIAGNOSIS_RULES s .SINGLE_THREADED ↔
      (s.contactCount = 1 ∧ s.daysInStage > 14) := by
  by_cases c1 : s.contactCount = 1
  · by_cases c2 : s.daysInStage > 14
    · by_cases c3 : s.contactCount ≤ 2 ∧ s.crossFunctionalContactPresent = false <;>
        simp [firedFor, DIAGNOSIS_RULES, List.filter_cons, ruleToMatch, c1, c2, c3,
          List.mem_map, List.mem_filter]
    · by_cases c3 : s.contactCount ≤ 2 ∧ s.crossFunctionalContactPresent = false <;>
        simp [firedFor, DIAGNOSIS_RULES, List.filter_cons, ruleToMatch, c1, c2, c3,
          List.mem_map, List.mem_filter]
  · by_cases c3 : s.contactCount ≤ 2 ∧ s.crossFunctionalContactPresent = false <;>
      simp [firedFor, DIAGNOSIS_RULES, List.filter_cons, ruleToMatch, c1, c3,
        List.mem_map, List.mem_filter]

/-- C4.  `evaluateRules` maps a code to exactly the catalog rules for that
code whose predicates hold on the signals, converted to matches in catalog
order; a code with no fired rule is absent (`Map.get` yields `undefined`).
The catalog has 18 rules, 3 per code, and e.g. ST-2 fires iff
`contactCount == 1 && daysInStage > 14`. -/
theorem evaluateRules_characterization (s : DealSignals) (code : DiagnosisCode) :
    lookupMatches (evaluateRules s) code =
        (if firedFor DIAGNOSIS_RULES s code = [] then none
         else some (firedFor DIAGNOSIS_RULES s code)) ∧
      (({ ruleId := "ST-2", severity := .high } : RuleMatch) ∈
          firedFor DIAGNOSIS_RULES s .SINGLE_THREADED ↔
        (s.contactCount = 1 ∧ s.daysInStage > 14)) ∧
      DIAGNOSIS_RULES.length = 18 ∧
      (DIAGNOSIS_RULES.filter (fun r => r.code == code)).length = 3 := by
  refine ⟨?_, firedFor_singleThreaded_ST2 s, by decide, ?_⟩
  · rw [evaluateRules, lookupMatches_evalFold]
    simp [lookupMatches]
  · cases code <;> decide

/-! ## C3: confidence arithmetic -/

theorem bonus_step_eq_add (c : Int) (m : RuleMatch) :
    (match bonusLookup m.ruleId with
      | some b => if b ≠ 0 then c + b else c
      | none => c) =
      c + bonusOf m.ruleId := by
  unfold bonusOf
  cases h : bonusLookup m.ruleId with
  | none => simp
  | some b => by_cases hb : b = 0 <;> simp [hb]

theorem bonus_foldl_eq_sum (ms : List RuleMatch) (c : Int) :
    ms.foldl
        (fun c m =>
          match bonusLookup m.ruleId with
          | some b => if b ≠ 0 then c + b else c
          | none => c)
        c =
      c + (ms.map (fun m => bonusOf m.ruleId)).sum := by
  induction ms generalizing c with
  | nil => simp
  | cons m rest ih =>
    rw [List.foldl_cons, ih]
    simp only [List.map_cons, List.sum_cons, bonus_step_eq_add]
    ring

theorem bonusOf_nonneg (id : String) : 0 ≤ bonusOf id := by
  unfold bonusOf bonusLookup CONFIDENCE_BONUSES
  by_cases h1 : (("EB-2", (10 : Int)).1 == id)
  · simp [List.find?_cons_of_pos, h1]
  · by_cases h2 : (("NV-2", (15 : Int)).1 == id)
    · simp [List.find?_cons_of_neg, List.find?_cons_of_pos, h1, h2]
    · by_cases h3 : (("PG-3", (10 : Int)).1 == id)
      · simp [List.find?_cons_of_neg, List.find?_cons_of_pos, h1, h2, h3]
      · simp [List.find?_cons_of_neg, h1, h2, h3]

theorem base_confidence_bounds (code : DiagnosisCode) :
    60 ≤ BASE_CONFIDENCE code ∧ BASE_CONFIDENCE code ≤ 70 := by
  cases code <;> exact ⟨by decide, by decide⟩

/-- C3.  For every code and non-empty match list, `calculateConfidence` is
the code's base confidence (0.60, 0.70, 0.65, 0.60, 0.65, 0.70 in hundredths:
60, 70, 65, 60, 65, 70), plus `0.1 × (matchCount − 1)` (10 per extra match)
only for `SINGLE_THREADED` and `NO_BUSINESS_IMPACT`, plus the per-rule
bonuses EB-2 +0.10, NV-2 +0.15, PG-3 +0.10 (10, 15, 10) summed over the
matches, capped at 1.0 (100); the result lies in [0, 1], and a match list of
exactly EB-1, EB-2, EB-3 for `NO_ECONOMIC_BUYER` yields 0.8 (80). -/
theorem calculateConfidence_characterization (code : DiagnosisCode)
    (ms : List RuleMatch) (h : ms ≠ []) :
    (calculateConfidence code ms =
        (if BASE_CONFIDENCE code +
              (if code = .SINGLE_THREADED ∨ code = .NO_BUSINESS_IMPACT then
                10 * ((ms.length : Int) - 1)
               else 0) +
              (ms.map (fun m => bonusOf m.ruleId)).sum ≤ 100 then
          BASE_CONFIDENCE code +
            (if code = .SINGLE_THREADED ∨ code = .NO_BUSINESS_IMPACT then
              10 * ((ms.length : Int) - 1)
             else 0) +
            (ms.map (fun m => bonusOf m.ruleId)).sum
         else 100)) ∧
      (0 ≤ calculateConfidence code ms ∧ calculateConfidence code ms ≤ 100) ∧
      (0 ≤ (calculateConfidence code ms : ℚ) / 100 ∧
        (calculateConfidence code ms : ℚ) / 100 ≤ 1) ∧
      (BASE_CONFIDENCE .SINGLE_THREADED = 60 ∧ BASE_CONFIDENCE .NO_ECONOMIC_BUYER = 70 ∧
        BASE_CONFIDENCE .NO_BUSINESS_IMPACT = 65 ∧ BASE_CONFIDENCE .NO_NEW_VALUE = 60 ∧
        BASE_CONFIDENCE .WEAK_URGENCY = 65 ∧ BASE_CONFIDENCE .SALES_PROCESS_GAPS = 70) ∧
      (bonusOf "EB-2" = 10 ∧ bonusOf "NV-2" = 15 ∧ bonusOf "PG-3" = 10) ∧
      calculateConfidence .NO_ECONOMIC_BUYER
          [{ ruleId := "EB-1", severity := .high }, { ruleId := "EB-2", severity := .high },
           { ruleId := "EB-3", severity := .medium }] = 80 ∧
      ((60 : ℚ) / 100 = 0.6 ∧ (65 : ℚ) / 100 = 0.65 ∧ (70 : ℚ) / 100 = 0.7 ∧
        (10 : ℚ) / 100 = 0.1 ∧ (15 : ℚ) / 100 = 0.15 ∧ (80 : ℚ) / 100 = 0.8) := by
  have hlen : (1 : Int) ≤ (ms.length : Int) := by
    have : 0 < ms.length := List.length_pos.2 h
    omega
  have hsum : 0 ≤ (ms.map (fun m => bonusOf m.ruleId)).sum := by
    refine List.sum_nonneg ?_
    intro x hx
    obtain ⟨m, _, rfl⟩ := List.mem_map.1 hx
    exact bonusOf_nonneg m.ruleId
  have hbase := base_confidence_bounds code
  have heq : calculateConfidence code ms =
      (if BASE_CONFIDENCE code +
            (if code = .SINGLE_THREADED ∨ code = .NO_BUSINESS_IMPACT then
              10 * ((ms.length : Int) - 1)
             else 0) +
            (ms.map (fun m => bonusOf m.ruleId)).sum ≤ 100 then
        BASE_CONFIDENCE code +
          (if code = .SINGLE_THREADED ∨ code = .NO_BUSINESS_IMPACT then
            10 * ((ms.length : Int) - 1)
           else 0) +
          (ms.map (fun m => bonusOf m.ruleId)).sum
       else 100) := by
    simp only [calculateConfidence, bonus_foldl_eq_sum]
    by_cases hcode : code = .SINGLE_THREADED ∨ code = .NO_BUSINESS_IMPACT <;>
      simp only [if_pos, if_neg, hcode, ite_true, ite_false] <;>
        split_ifs <;> omega
  have hb1 : 0 ≤ calculateConfidence code ms := by
    rw [heq]
    by_cases hcode : code = .SINGLE_THREADED ∨ code = .NO_BUSINESS_IMPACT <;>
      simp only [if_pos, if_neg, hcode, ite_true, ite_false] <;>
        split_ifs <;> omega
  have hb2 : calculateConfidence code ms ≤ 100 := by
    rw [heq]; split_ifs <;> omega
  refine ⟨heq, ⟨hb1, hb2⟩, ⟨?_, ?_⟩, ⟨rfl, rfl, rfl, rfl, rfl, rfl⟩,
    ⟨by decide, by decide, by decide⟩, by decide,
    by norm_num, by norm_num, by norm_num, by norm_num, by norm_num, by norm_num⟩
  · have : (0 : ℚ) ≤ (calculateConfidence code ms : ℚ) := by exact_mod_cast hb1
    positivity
  · rw [div_le_one (by norm_num)]
    exact_mod_cast hb2

theorem calculateConfidence_characterization_witness :
    ([{ ruleId := "EB-1", severity := .high }, { ruleId := "EB-2", severity := .high },
      { ruleId := "EB-3", severity := .medium }] : List RuleMatch) ≠ [] ∧
      (0 ≤ calculateConfidence .NO_ECONOMIC_BUYER
          [{ ruleId := "EB-1", severity := .high }, { ruleId := "EB-2", severity := .high },
           { ruleId := "EB-3", severity := .medium }] ∧
        calculateConfidence .NO_ECONOMIC_BUYER
            [{ ruleId := "EB-1", severity := .high }, { ruleId := "EB-2", severity := .high },
             { ruleId := "EB-3", severity := .medium }] ≤ 100) :=
  ⟨by decide,
    (calculateConfidence_characterization .NO_ECONOMIC_BUYER
        [{ ruleId := "EB-1", severity := .high }, { ruleId := "EB-2", severity := .high },
         { ruleId := "EB-3", severity := .medium }] (by decide)).2.1⟩

/-! ## C7: evidence deduplication -/

theorem collectEvidenceGo_eq (ms : List RuleMatch) :
    ∀ (evid seen seen' : List String), (∀ x, x ∈ seen ↔ x ∈ seen') →
      collectEvidenceGo ms evid seen =
        evid ++ firstOccurrences (evidenceTexts ms) seen' := by
  induction ms with
  | nil =>
    intro evid seen seen' _
    simp [collectEvidenceGo, evidenceTexts, firstOccurrences]
  | cons m rest ih =>
    intro evid seen seen' hseen
    cases h : evidenceLookup m.ruleId with
    | none =>
      simp only [collectEvidenceGo, h, evidenceTexts, List.filterMap_cons]
      exact ih evid seen seen' hseen
    | some msg =>
      by_cases hmsg : msg = ""
      · subst hmsg
        simp [collectEvidenceGo, h, evidenceTexts, List.filterMap_cons]
        exact ih evid seen seen' hseen
      · have hbne : (msg != "") = true := bne_iff_ne.2 hmsg
        by_cases hmem : msg ∈ seen
        · have hc : seen.contains msg = true := by
            simp [List.contains, List.elem_eq_mem, hmem]
          have hc' : seen'.contains msg = true := by
            simp [List.contains, List.elem_eq_mem, (hseen msg).1 hmem]
          simp only [collectEvidenceGo, h, hbne, hc, Bool.not_true, Bool.and_false,
            Bool.false_eq_true, if_false, evidenceTexts, List.filterMap_cons,
            if_neg hmsg, firstOccurrences, if_pos hc']
          exact ih evid seen seen' hseen
        · have hc : seen.contains msg = false := by
            simp [List.contains, List.elem_eq_mem, hmem]
          have hmem' : msg ∉ seen' := fun hx => hmem ((hseen msg).2 hx)
          have hc' : seen'.contains msg = false := by
            simp [List.contains, List.elem_eq_mem, hmem']
          have hseen2 : ∀ x, x ∈ seen ++ [msg] ↔ x ∈ msg :: seen' := by
            intro x
            simp only [List.mem_append, List.mem_cons, List.mem_singleton, hseen x]
            tauto
          simp only [collectEvidenceGo, h, hbne, hc, Bool.not_false, Bool.and_self,
            if_true, evidenceTexts, List.filterMap_cons, if_neg hmsg,
            firstOccurrences, hc', Bool.false_eq_true, if_false]
          rw [ih (evid ++ [msg]) (seen ++ [msg]) (msg :: seen') hseen2]
          simp only [evidenceTexts, List.append_assoc, List.singleton_append]

theorem firstOccurrences_mem_not_seen (xs : List String) :
    ∀ seen y, y ∈ firstOccurrences xs seen → y ∉ seen := by
  induction xs with
  | nil => intro seen y hy; simp [firstOccurrences] at hy
  | cons x rest ih =>
    intro seen y hy
    simp only [firstOccurrences] at hy
    by_cases hc : seen.contains x
    · rw [if_pos hc] at hy
      exact ih seen y hy
    · rw [if_neg hc] at hy
      rcases List.mem_cons.1 hy with rfl | hy'
      · intro hmem
        exact hc (by simp [List.contains, List.elem_eq_mem, hmem])
      · intro hmem
        exact ih (x :: seen) y hy' (List.mem_cons_of_mem x hmem)

theorem firstOccurrences_nodup (xs : List String) :
    ∀ seen, (firstOccurrences xs seen).Nodup := by
  induction xs with
  | nil => intro seen; simp [firstOccurrences]
  | cons x rest ih =>
    intro seen
    simp only [firstOccurrences]
    split_ifs with hc
    · exact ih seen
    · refine List.nodup_cons.2 ⟨?_, ih (x :: seen)⟩
      intro hx
      exact firstOccurrences_mem_not_seen rest (x :: seen) x hx (List.mem_cons_self x seen)

theorem mem_of_head?_eq {α : Type _} {l : List α} {a : α} (h : l.head? = some a) :
    a ∈ l := by
  cases l with
  | nil => simp at h
  | cons x xs =>
    simp only [List.head?_cons, Option.some.injEq] at h
    exact h ▸ List.mem_cons_self x xs

theorem insertMatch_values_ne_nil (m : List (DiagnosisCode × List RuleMatch))
    (k : DiagnosisCode) (rm : RuleMatch) (hm : ∀ p ∈ m, p.2 ≠ []) :
    ∀ p ∈ insertMatch m k rm, p.2 ≠ [] := by
  induction m with
  | nil =>
    intro p hp
    simp only [insertMatch, List.mem_singleton] at hp
    subst hp
    simp
  | cons q rest ih =>
    intro p hp
    obtain ⟨c, l⟩ := q
    simp only [insertMatch] at hp
    split_ifs at hp with hc
    · rcases List.mem_cons.1 hp with rfl | hp'
      · simp
      · exact hm _ (List.mem_cons_of_mem _ hp')
    · rcases List.mem_cons.1 hp with rfl | hp'
      · exact hm _ (List.mem_cons_self _ _)
      · exact ih (fun q hq => hm q (List.mem_cons_of_mem _ hq)) p hp'

theorem evalFold_values_ne_nil (rules : List DiagnosisRule) (s : DealSignals) :
    ∀ acc, (∀ p ∈ acc, p.2 ≠ []) →
      ∀ p ∈ rules.foldl
          (fun acc rule =>
            if rule.condition s then
              insertMatch acc rule.code { ruleId := rule.id, severity := rule.severity }
            else acc)
          acc, p.2 ≠ [] := by
  induction rules with
  | nil => intro acc hacc p hp; exact hacc p hp
  | cons r rs ih =>
    intro acc hacc p hp
    rw [List.foldl_cons] at hp
    by_cases hcond : r.condition s
    · rw [if_pos hcond] at hp
      exact ih _ (insertMatch_values_ne_nil _ _ _ hacc) p hp
    · rw [if_neg hcond] at hp
      exact ih _ hacc p hp

theorem evaluateRules_values_ne_nil (s : DealSignals) :
    ∀ p ∈ evaluateRules s, p.2 ≠ [] :=
  evalFold_values_ne_nil DIAGNOSIS_RULES s [] (by intro p hp; simp at hp)

theorem buildDiagnosesFrom_nil (deal : Deal) : buildDiagnosesFrom [] deal = [] := rfl

theorem mem_buildDiagnosesFrom {rm : List (DiagnosisCode × List RuleMatch)}
    {deal : Deal} {d : Diagnosis} (hd : d ∈ buildDiagnosesFrom rm deal) :
    ∃ code ms, lookupMatches rm code = some ms ∧ ms ≠ [] ∧
      d = { code := code, severity := getHighestSeverity ms,
            confidence := calculateConfidence code ms,
            evidence := collectEvidence ms,
            explanation := generateExplanation code deal,
            matchedRules := ms.map (fun m => m.ruleId) } := by
  rcases List.mem_filterMap.1 hd with ⟨code, _, heq⟩
  cases h : lookupMatches rm code with
  | none => rw [h] at heq; simp at heq
  | some ms =>
    rw [h] at heq
    dsimp only at heq
    by_cases hne : ms.isEmpty
    · rw [if_pos hne] at heq; simp at heq
    · rw [if_neg hne] at heq
      refine ⟨code, ms, h, ?_, (Option.some.inj heq).symm⟩
      intro hnil
      exact hne (by simp [hnil])

theorem build_ne_nil {s : DealSignals} (hne : evaluateRules s ≠ []) (deal : Deal) :
    buildDiagnosesFrom (evaluateRules s) deal ≠ [] := by
  cases hev : evaluateRules s with
  | nil => exact absurd hev hne
  | cons p rest =>
    obtain ⟨c, l⟩ := p
    have hl : l ≠ [] := by
      have := evaluateRules_values_ne_nil s (c, l) (by rw [hev]; exact List.mem_cons_self _ _)
      simpa using this
    have hlook : lookupMatches ((c, l) :: rest) c = some l := by simp [lookupMatches]
    have hcmem : c ∈ DIAGNOSIS_EXECUTION_ORDER := by cases c <;> decide
    intro hnil
    simp only [buildDiagnosesFrom, List.filterMap_eq_nil_iff] at hnil
    have hc := hnil c hcmem
    rw [hlook] at hc
    dsimp only at hc
    have hle : l.isEmpty = false := by
      cases l with
      | nil => exact absurd rfl hl
      | cons a as => rfl
    rw [hle] at hc
    simp at hc

theorem diagnoseDeal_eq_head (deal : Deal) :
    diagnoseDeal deal = (sortedDiagnoses deal).head? := by
  simp only [diagnoseDeal, sortedDiagnoses]
  cases hm : (evaluateRules (computeSignals deal)).isEmpty with
  | true =>
    have hnil : evaluateRules (computeSignals deal) = [] := List.isEmpty_iff.1 hm
    simp [hnil, buildDiagnosesFrom_nil, sortDiags, List.insertionSort]
  | false =>
    have hne : evaluateRules (computeSignals deal) ≠ [] := by
      intro hnil; rw [hnil] at hm; simp at hm
    have hb := build_ne_nil hne deal
    have hbe : (buildDiagnosesFrom (evaluateRules (computeSignals deal)) deal).isEmpty = false := by
      cases hx : buildDiagnosesFrom (evaluateRules (computeSignals deal)) deal with
      | nil => exact absurd hx hb
      | cons a as => rfl
    simp [hbe]

theorem getAllDiagnoses_eq_take (deal : Deal) :
    getAllDiagnoses deal = (sortedDiagnoses deal).take 3 := by
  simp only [getAllDiagnoses, sortedDiagnoses]
  cases hm : (evaluateRules (computeSignals deal)).isEmpty with
  | true =>
    have hnil : evaluateRules (computeSignals deal) = [] := List.isEmpty_iff.1 hm
    simp [hnil, buildDiagnosesFrom_nil, sortDiags, List.insertionSort]
  | false => simp

/-- C7.  `collectEvidence` returns the matched rules' evidence strings in
match order keeping only the first occurrence of duplicated text, hence a
duplicate-free list; consequently every diagnosis the pipeline returns has a
duplicate-free evidence list. -/
theorem collectEvidence_no_duplicates :
    (∀ ms : List RuleMatch,
        collectEvidence ms = firstOccurrences (evidenceTexts ms) [] ∧
          (collectEvidence ms).Nodup) ∧
      ∀ deal : Deal, (diagnoseDeal deal).elim True (fun d => d.evidence.Nodup) := by
  have hmain : ∀ ms : List RuleMatch,
      collectEvidence ms = firstOccurrences (evidenceTexts ms) [] := fun ms => by
    simpa [collectEvidence] using collectEvidenceGo_eq ms [] [] [] (fun x => Iff.rfl)
  have hnodup : ∀ ms : List RuleMatch, (collectEvidence ms).Nodup := fun ms => by
    rw [hmain ms]
    exact firstOccurrences_nodup (evidenceTexts ms) []
  refine ⟨fun ms => ⟨hmain ms, hnodup ms⟩, ?_⟩
  intro deal
  cases hd : diagnoseDeal deal with
  | none => trivial
  | some d =>
    simp only [Option.elim]
    have hd' : d ∈ sortedDiagnoses deal :=
      mem_of_head?_eq (by rw [← diagnoseDeal_eq_head]; exact hd)
    have hd'' : d ∈ buildDiagnosesFrom (evaluateRules (computeSignals deal)) deal := by
      have := hd'
      simp only [sortedDiagnoses, sortDiags] at this
      exact (List.mem_insertionSort diagBefore).1 this
    obtain ⟨code, ms, _, _, rfl⟩ := mem_buildDiagnosesFrom hd''
    exact hnodup ms

/-! ## C2: the aggregator's sort, primary selection, and truncation -/

/-- C2.  For every deal the sorted diagnosis list is ordered by severity rank
ascending (with ranks high 0, medium 1, low 2, critical −1), then
execution-order index ascending, then confidence descending; it is a
permutation of the built diagnosis list; `diagnoseDeal` returns its element 0
(`none` exactly when no rule matched), and `getAllDiagnoses` returns its
first 3 elements. -/
theorem aggregator_sort_characterization (deal : Deal) :
    List.Pairwise diagLex (sortedDiagnoses deal) ∧
      (sortedDiagnoses deal).Perm
        (buildDiagnosesFrom (evaluateRules (computeSignals deal)) deal) ∧
      diagnoseDeal deal = (sortedDiagnoses deal).head? ∧
      getAllDiagnoses deal = (sortedDiagnoses deal).take 3 ∧
      (severityRank .high = 0 ∧ severityRank .medium = 1 ∧ severityRank .low = 2 ∧
        severityRank .critical = -1) ∧
      (execIndex .SALES_PROCESS_GAPS = 0 ∧ execIndex .SINGLE_THREADED = 1 ∧
        execIndex .NO_ECONOMIC_BUYER = 2 ∧ execIndex .NO_BUSINESS_IMPACT = 3 ∧
        execIndex .WEAK_URGENCY = 4 ∧ execIndex .NO_NEW_VALUE = 5) := by
  refine ⟨?_, ?_, diagnoseDeal_eq_head deal, getAllDiagnoses_eq_take deal,
    ⟨rfl, rfl, rfl, rfl⟩,
    ⟨by decide, by decide, by decide, by decide, by decide, by decide⟩⟩
  · exact List.Pairwise.imp (fun h => (diagBefore_iff_diagLex _ _).mp h)
      (List.sorted_insertionSort diagBefore _)
  · exact List.perm_insertionSort diagBefore _

/-! ## C10: the two engines disagree -/

/-- C10.  On `stalledDeal` (one non-executive stakeholder, 18 > 14 days
inactive) the legacy engine of `diagnosis-engine.ts` returns a
`SINGLE_THREADED` diagnosis of severity `critical` (its result type carries
no confidence and no matched rules), while the signals-based pipeline returns
a diagnosis of severity `high` with confidence value 0.8; the two
implementations are not extensionally equal. -/
theorem legacy_and_pipeline_disagree :
    (legacyDiagnoseDeal stalledDeal).map (fun d => (d.code, d.severity)) =
        some (.SINGLE_THREADED, .critical) ∧
      (diagnoseDeal stalledDeal).map (fun d => (d.severity, d.confidence)) =
        some (.high, 80) ∧
      ((80 : ℚ) / 100 = 0.8) ∧
      (diagnoseDeal stalledDeal).map (fun d => (d.code, d.severity)) ≠
        (legacyDiagnoseDeal stalledDeal).map (fun d => (d.code, d.severity)) := by
  refine ⟨by decide, by decide, by norm_num, by decide⟩

end DealDoctor
